import Mathlib

/-!
Verification of the polling/streaming engine of the serverCamp relay
(`pollWorkflow`, `getPollingInterval`, `analyzeN8NResponse` in the source).

The engine repeatedly fetches a remote status document, classifies it,
emits stream events and stops on completion, attempt ceiling, or
consecutive network failures.  The embedding below models JSON values,
JavaScript truthiness, the serialization-based response classifier, the
poll scheduler and the polling loop itself.  The network is abstracted as
an oracle `Nat → FetchOutcome` giving the outcome of the fetch performed
in each loop iteration; wall-clock time is abstracted as a single elapsed
milliseconds parameter used only by the final summary.

Modelling notes kept faithful to the JavaScript source:
* property access is total here (absent key yields `none`, i.e. JS
  `undefined`); the claims are settled over document values on which the
  source performs no property access on `null`;
* logger calls are pure observability and are omitted;
* `sendEvent` is modelled as appending to an event list.
-/

/-- A JSON value as decoded by the HTTP client (JS values the loop sees). -/
inductive JsVal where
  | null : JsVal
  | bool : Bool → JsVal
  | num : Int → JsVal
  | str : String → JsVal
  | arr : List JsVal → JsVal
  | obj : List (String × JsVal) → JsVal

/-- JavaScript truthiness of a value. -/
def jsTruthy : JsVal → Bool
  | JsVal.null => false
  | JsVal.bool b => b
  | JsVal.num n => n != 0
  | JsVal.str s => s != ""
  | JsVal.arr _ => true
  | JsVal.obj _ => true

/-- Truthiness of a possibly-absent value (JS `undefined` is falsy). -/
def truthyOpt : Option JsVal → Bool
  | none => false
  | some v => jsTruthy v

/-- JavaScript `typeof`: note `typeof null` is the string object. -/
def jsTypeOf : JsVal → String
  | JsVal.null => "object"
  | JsVal.bool _ => "boolean"
  | JsVal.num _ => "number"
  | JsVal.str _ => "string"
  | JsVal.arr _ => "object"
  | JsVal.obj _ => "object"

/-- First-match association lookup, the object property read. -/
def jsLookup (k : String) : List (String × JsVal) → Option JsVal
  | [] => none
  | kv :: rest => if kv.1 = k then some kv.2 else jsLookup k rest

/-- Property access `v[k]`; non-objects have no properties. -/
def jsGet : JsVal → String → Option JsVal
  | JsVal.obj fs, k => jsLookup k fs
  | _, _ => none

/-- JSON string escaping used by `JSON.stringify` (quote and backslash). -/
def jsEscapeChar (c : Char) : List Char :=
  if c = '\\' then ['\\', '\\']
  else if c = '"' then ['\\', '"']
  else [c]

/-- Quote a string as `JSON.stringify` does. -/
def jsQuote (s : String) : String :=
  "\"" ++ String.mk (s.data.flatMap jsEscapeChar) ++ "\""

mutual

/-- The serialization `JSON.stringify` of a value. -/
def jsStringify : JsVal → String
  | JsVal.null => "null"
  | JsVal.bool true => "true"
  | JsVal.bool false => "false"
  | JsVal.num n => toString n
  | JsVal.str s => jsQuote s
  | JsVal.arr xs => "[" ++ jsStringifyList xs ++ "]"
  | JsVal.obj fs => "\x7b" ++ jsStringifyFields fs ++ "\x7d"

/-- Comma-separated serialization of array elements. -/
def jsStringifyList : List JsVal → String
  | [] => ""
  | [x] => jsStringify x
  | x :: y :: rest => jsStringify x ++ "," ++ jsStringifyList (y :: rest)

/-- Comma-separated serialization of object fields. -/
def jsStringifyFields : List (String × JsVal) → String
  | [] => ""
  | [kv] => jsQuote kv.1 ++ ":" ++ jsStringify kv.2
  | kv :: kv2 :: rest =>
      jsQuote kv.1 ++ ":" ++ jsStringify kv.2 ++ "," ++ jsStringifyFields (kv2 :: rest)

end

/-- Does the text start with the pattern (first argument)? -/
def leadsWith : List Char → List Char → Bool
  | [], _ => true
  | _ :: _, [] => false
  | c :: cs, d :: ds => c == d && leadsWith cs ds

/-- Does the pattern occur anywhere in the text? -/
def hasSub (pat : List Char) : List Char → Bool
  | [] => leadsWith pat []
  | d :: ds => leadsWith pat (d :: ds) || hasSub pat ds

/-- JavaScript `String.prototype.includes` (substring test). -/
def jsIncludes (s pat : String) : Bool :=
  hasSub pat.data s.data

/-- ASCII lowercasing of one character, as `toLowerCase` acts on the
ASCII range (the only range the failure markers use). -/
def asciiLowerChar (c : Char) : Char :=
  if 65 ≤ c.toNat ∧ c.toNat ≤ 90 then Char.ofNat (c.toNat + 32) else c

/-- ASCII lowercasing of a string. -/
def asciiLower (s : String) : String :=
  String.mk (s.data.map asciiLowerChar)

/-- The lowercased serialization scanned by the classifier. -/
def lowerStr (v : JsVal) : String :=
  asciiLower (jsStringify v)

/-- Result of the response classifier (`message` field omitted). -/
structure ClassifiedError where
  isError : Bool
  errorType : Option String
  severity : Option String

/-- The classifier `analyzeN8NResponse` from the source: a case-insensitive
substring scan of the serialized document for engine failure markers. -/
def analyzeN8NResponse (data : JsVal) : ClassifiedError :=
  if !jsTruthy data || jsTypeOf data != "object" then
    ⟨false, none, none⟩
  else if jsIncludes (lowerStr data) "exit code: 1" then
    ⟨true, some "workflow_error", some "critical"⟩
  else if jsIncludes (lowerStr data) "process finished with an error" then
    ⟨true, some "process_error", some "critical"⟩
  else if jsIncludes (lowerStr data) "timeout" || jsIncludes (lowerStr data) "timed out" then
    ⟨true, some "n8n_timeout", some "warning"⟩
  else
    ⟨false, none, none⟩

/-- The poll scheduler `getPollingInterval` from the source (milliseconds). -/
def getPollingInterval (pollCount : Nat) (hasError : Bool) : Nat :=
  if hasError then 15000
  else if pollCount < 5 then 3000
  else if pollCount < 20 then 5000
  else if pollCount < 60 then 10000
  else if pollCount < 120 then 15000
  else 20000

/-- Outcome of one fetch attempt: a decoded document, or a transport
failure (network error, connection reset, HTTP status at or above 600,
body that fails to decode) caught by the `catch` block of the loop. -/
inductive FetchOutcome where
  | success : JsVal → FetchOutcome
  | transportError : FetchOutcome

/-- The attempt ceiling `config.maxPolls` of the source. -/
def maxPolls : Nat := 1000

/-- The consecutive-failure ceiling `config.maxConsecutiveErrors`. -/
def maxConsecutiveErrors : Nat := 10

/-- One stream event, restricted to the payload fields the claims are
about; the wall-clock payload fields are omitted. -/
inductive StreamEvent where
  | step : Nat → Nat → StreamEvent
  | tooManyErrors : Nat → Nat → StreamEvent
  | n8nErrorDetected : String → String → Nat → StreamEvent
  | errorPersisting : String → Nat → StreamEvent
  | update : Nat → Bool → String → Bool → StreamEvent
  | workflowCompleted : Bool → Nat → String → StreamEvent
  | pollingError : Nat → Nat → Bool → StreamEvent
  | pollingEnded : Nat → Nat → Bool → Bool → String → Nat → Bool → String → StreamEvent
deriving DecidableEq

/-- The mutable state of one run of `pollWorkflow`, with the emitted
events accumulated in emission order. -/
structure RunState where
  data : JsVal
  pollCount : Nat
  consecutiveErrors : Nat
  workflowFailed : Bool
  events : List StreamEvent

/-- The `while` condition of the loop:
`data.executionUrl && !data.finished && pollCount < config.maxPolls`. -/
def loopCond (s : RunState) : Bool :=
  truthyOpt (jsGet s.data "executionUrl") && !truthyOpt (jsGet s.data "finished")
    && decide (s.pollCount < maxPolls)

/-- The derived `workflowStatus` label of the update event, computed from
the already-updated sticky flag and the fresh document. -/
def updateLabel (wf : Bool) (doc : JsVal) : String :=
  if wf then "error-but-continuing"
  else if truthyOpt (jsGet doc "finished") then "completed"
  else "running"

/-- State after a successful fetch in one iteration: the failure counter
resets, the document is replaced wholesale, the classifier runs, the
sticky flag may be set, and the step, error, update and (on completion)
terminal events are appended in source order. -/
def successStep (s : RunState) (pc : Nat) (doc : JsVal) : RunState :=
  { data := doc
    pollCount := pc
    consecutiveErrors := 0
    workflowFailed := s.workflowFailed || (analyzeN8NResponse doc).isError
    events := s.events
      ++ [StreamEvent.step pc s.consecutiveErrors]
      ++ (if (analyzeN8NResponse doc).isError then
            (if s.workflowFailed then
              [StreamEvent.errorPersisting ((analyzeN8NResponse doc).errorType.getD "") pc]
            else
              [StreamEvent.n8nErrorDetected ((analyzeN8NResponse doc).errorType.getD "")
                ((analyzeN8NResponse doc).severity.getD "") pc])
          else [])
      ++ [StreamEvent.update pc (analyzeN8NResponse doc).isError
            (updateLabel (s.workflowFailed || (analyzeN8NResponse doc).isError) doc)
            (s.workflowFailed || (analyzeN8NResponse doc).isError)]
      ++ (if truthyOpt (jsGet doc "finished") then
            [StreamEvent.workflowCompleted (s.workflowFailed || (analyzeN8NResponse doc).isError) pc
              (if s.workflowFailed || (analyzeN8NResponse doc).isError then
                "completed-with-errors" else "completed-successfully")]
          else []) }

/-- State after the `catch` branch of one iteration: the failure counter
increments and a recoverable-error event is appended.  When the fetch
itself was reached, the step event precedes it; when the URL property was
truthy but not a string, the `split` call throws before the step event. -/
def errorStep (s : RunState) (pc : Nat) (withStepEvent : Bool) : RunState :=
  { s with
    pollCount := pc
    consecutiveErrors := s.consecutiveErrors + 1
    events := s.events
      ++ (if withStepEvent then [StreamEvent.step pc s.consecutiveErrors] else [])
      ++ [StreamEvent.pollingError pc (s.consecutiveErrors + 1)
            (decide (s.consecutiveErrors + 1 < maxConsecutiveErrors))] }

/-- One iteration of the loop body, entered with the `while` condition
true.  Returns the new state and whether the body executed `break`
(the consecutive-failure guard). -/
def pollStep (oracle : Nat → FetchOutcome) (s : RunState) : RunState × Bool :=
  if maxConsecutiveErrors ≤ s.consecutiveErrors then
    ({ s with
        pollCount := s.pollCount + 1
        events := s.events
          ++ [StreamEvent.tooManyErrors s.consecutiveErrors (s.pollCount + 1)] }, true)
  else
    match jsGet s.data "executionUrl" with
    | some (JsVal.str _) =>
        match oracle s.pollCount with
        | FetchOutcome.success doc => (successStep s (s.pollCount + 1) doc, false)
        | FetchOutcome.transportError => (errorStep s (s.pollCount + 1) true, false)
    | _ => (errorStep s (s.pollCount + 1) false, false)

/-- The `while` loop, driven by the fetch oracle; `fuel` bounds the
number of remaining condition checks and exceeds what the attempt
ceiling allows, so the result is fuel-independent for large fuel. -/
def pollLoop (oracle : Nat → FetchOutcome) : Nat → RunState → RunState
  | 0, s => s
  | fuel + 1, s =>
      if loopCond s then
        match pollStep oracle s with
        | (s', true) => s'
        | (s', false) => pollLoop oracle fuel s'
      else s

/-- The terminal reason and final status computed after the loop. -/
def endReason (s : RunState) : String × String :=
  if truthyOpt (jsGet s.data "finished") && !s.workflowFailed then
    ("completed", "success")
  else if truthyOpt (jsGet s.data "finished") && s.workflowFailed then
    ("completed_with_errors", "partial_success")
  else if maxPolls ≤ s.pollCount then
    ("max_polls_reached", "max_attempts")
  else if maxConsecutiveErrors ≤ s.consecutiveErrors then
    ("too_many_network_errors", "network_failure")
  else
    ("interrupted", "interrupted")

/-- JavaScript strict equality to `true`, as in `data.finished === true`. -/
def strictTrue : Option JsVal → Bool
  | some (JsVal.bool true) => true
  | _ => false

/-- Rounded division, as `Math.round(ms / unit)` on whole milliseconds. -/
def roundDiv (a unit : Nat) : Nat :=
  (a + unit / 2) / unit

/-- Object spread `\x7b...v\x7d`: objects give their fields, arrays and
strings give index-keyed entries, primitives give nothing. -/
def jsSpread : JsVal → List (String × JsVal)
  | JsVal.obj fs => fs
  | JsVal.arr xs => xs.enum.map (fun p => (toString p.1, p.2))
  | JsVal.str st => st.data.enum.map (fun p => (toString p.1, JsVal.str (String.mk [p.2])))
  | _ => []

/-- The `_meta` block attached to the returned document. -/
def metaFor (s : RunState) (elapsedMs : Nat) : JsVal :=
  JsVal.obj
    [("success", JsVal.bool (strictTrue (jsGet s.data "finished"))),
     ("failed", JsVal.bool s.workflowFailed),
     ("reason", JsVal.str (endReason s).1),
     ("totalPolls", JsVal.num (s.pollCount : Int)),
     ("totalTime", JsVal.num (roundDiv elapsedMs 1000 : Int)),
     ("totalMinutes", JsVal.num (roundDiv elapsedMs 60000 : Int)),
     ("noTimeoutApplied", JsVal.bool true)]

/-- Result of one whole run: the returned value and the event trace. -/
structure RunResult where
  result : JsVal
  events : List StreamEvent

/-- The code after the loop: compute the terminal reason, emit the single
summary event and return the last document augmented with `_meta`. -/
def pollFinish (elapsedMs : Nat) (s : RunState) : RunResult :=
  { result := JsVal.obj
      (((jsSpread s.data).filter (fun kv => kv.1 != "_meta"))
        ++ [("_meta", metaFor s elapsedMs)])
    events := s.events
      ++ [StreamEvent.pollingEnded s.pollCount (roundDiv elapsedMs 1000)
            (truthyOpt (jsGet s.data "finished")) s.workflowFailed (endReason s).1
            s.consecutiveErrors (strictTrue (jsGet s.data "finished")) (endReason s).2] }

/-- The initial per-run state `\x7b executionUrl, finished: false \x7d`. -/
def initState (executionUrl : JsVal) : RunState :=
  { data := JsVal.obj [("executionUrl", executionUrl), ("finished", JsVal.bool false)]
    pollCount := 0
    consecutiveErrors := 0
    workflowFailed := false
    events := [] }

/-- One whole run of `pollWorkflow`: the loop from the initial state,
then the summary.  `elapsedMs` abstracts the wall-clock elapsed time
read after the loop. -/
def pollWorkflow (executionUrl : JsVal) (oracle : Nat → FetchOutcome)
    (elapsedMs : Nat) : RunResult :=
  pollFinish elapsedMs (pollLoop oracle (maxPolls + 1) (initState executionUrl))

/-- Recognizer for the terminal completion event. -/
def isCompletedEvent : StreamEvent → Bool
  | StreamEvent.workflowCompleted _ _ _ => true
  | _ => false

/-- Recognizer for the consecutive-failure terminal event. -/
def isTooManyEvent : StreamEvent → Bool
  | StreamEvent.tooManyErrors _ _ => true
  | _ => false

/-- Recognizer for the recoverable transport-failure event. -/
def isPollingErrorEvent : StreamEvent → Bool
  | StreamEvent.pollingError _ _ _ => true
  | _ => false

/-- Recognizer for the first-detection error event. -/
def isDetectedEvent : StreamEvent → Bool
  | StreamEvent.n8nErrorDetected _ _ _ => true
  | _ => false

/-- Recognizer for the persisting-error event. -/
def isPersistingEvent : StreamEvent → Bool
  | StreamEvent.errorPersisting _ _ => true
  | _ => false

/-- Recognizer for the final summary event. -/
def isEndedEvent : StreamEvent → Bool
  | StreamEvent.pollingEnded _ _ _ _ _ _ _ _ => true
  | _ => false

section BasicLemmas

variable (o : Nat → FetchOutcome)

/-- Characterization of the consecutive-failure guard branch. -/
lemma pollStep_guard (s : RunState) (h : maxConsecutiveErrors ≤ s.consecutiveErrors) :
    pollStep o s =
      ({ s with
          pollCount := s.pollCount + 1
          events := s.events
            ++ [StreamEvent.tooManyErrors s.consecutiveErrors (s.pollCount + 1)] }, true) := by
  unfold pollStep
  rw [if_pos h]

/-- Characterization of a successful-fetch iteration. -/
lemma pollStep_success (s : RunState) (u : String) (doc : JsVal)
    (h10 : s.consecutiveErrors < maxConsecutiveErrors)
    (hu : jsGet s.data "executionUrl" = some (JsVal.str u))
    (ho : o s.pollCount = FetchOutcome.success doc) :
    pollStep o s = (successStep s (s.pollCount + 1) doc, false) := by
  unfold pollStep
  rw [if_neg (Nat.not_le.mpr h10), hu, ho]

/-- Characterization of a transport-failure iteration. -/
lemma pollStep_error (s : RunState) (u : String)
    (h10 : s.consecutiveErrors < maxConsecutiveErrors)
    (hu : jsGet s.data "executionUrl" = some (JsVal.str u))
    (ho : o s.pollCount = FetchOutcome.transportError) :
    pollStep o s = (errorStep s (s.pollCount + 1) true, false) := by
  unfold pollStep
  rw [if_neg (Nat.not_le.mpr h10), hu, ho]

/-- When the condition fails the loop is over, whatever the fuel. -/
lemma pollLoop_stop (fuel : Nat) (s : RunState) (h : loopCond s = false) :
    pollLoop o fuel s = s := by
  cases fuel with
  | zero => rfl
  | succ n => simp [pollLoop, h]

/-- A breaking iteration ends the loop at the state the break produced. -/
lemma pollLoop_break (fuel : Nat) (s s' : RunState) (h : loopCond s = true)
    (hb : pollStep o s = (s', true)) :
    pollLoop o (fuel + 1) s = s' := by
  simp [pollLoop, h, hb]

/-- A non-breaking iteration continues the loop from the new state. -/
lemma pollLoop_cont (fuel : Nat) (s s' : RunState) (h : loopCond s = true)
    (hb : pollStep o s = (s', false)) :
    pollLoop o (fuel + 1) s = pollLoop o fuel s' := by
  simp [pollLoop, h, hb]

/-- Every iteration increments the attempt counter by exactly one,
before and regardless of the fetch outcome. -/
lemma pollStep_pollCount (s : RunState) :
    (pollStep o s).1.pollCount = s.pollCount + 1 := by
  unfold pollStep successStep errorStep
  repeat' split
  all_goals rfl

/-- No iteration ever clears the sticky workflow-error flag. -/
lemma pollStep_failed_mono (s : RunState) (h : s.workflowFailed = true) :
    (pollStep o s).1.workflowFailed = true := by
  unfold pollStep successStep errorStep
  repeat' split
  all_goals simp [h]

/-- The sticky flag survives any remaining portion of the loop. -/
lemma pollLoop_failed_mono (fuel : Nat) (s : RunState) (h : s.workflowFailed = true) :
    (pollLoop o fuel s).workflowFailed = true := by
  induction fuel generalizing s with
  | zero => exact h
  | succ n ih =>
      by_cases hc : loopCond s = true
      · rcases hb : pollStep o s with ⟨s', b⟩
        have hf' : s'.workflowFailed = true := by
          have := pollStep_failed_mono o s h
          rw [hb] at this
          exact this
        cases b with
        | true => rw [pollLoop_break o n s s' hc hb]; exact hf'
        | false => rw [pollLoop_cont o n s s' hc hb]; exact ih s' hf'
      · rw [pollLoop_stop o (n + 1) s (Bool.not_eq_true _ ▸ (by simpa using hc))]
        exact h

end BasicLemmas

section CountLemmas

variable (o : Nat → FetchOutcome)

/-- No loop iteration emits the final summary event. -/
lemma pollStep_ended_count (s : RunState) :
    ((pollStep o s).1.events).countP isEndedEvent = s.events.countP isEndedEvent := by
  unfold pollStep successStep errorStep
  repeat' split
  all_goals simp [List.countP_append, isEndedEvent]

/-- The whole loop emits no final summary event. -/
lemma pollLoop_ended_count (fuel : Nat) (s : RunState) :
    ((pollLoop o fuel s).events).countP isEndedEvent = s.events.countP isEndedEvent := by
  induction fuel generalizing s with
  | zero => rfl
  | succ n ih =>
      by_cases hc : loopCond s = true
      · rcases hb : pollStep o s with ⟨s', b⟩
        have hstep := pollStep_ended_count o s
        rw [hb] at hstep
        cases b with
        | true => rw [pollLoop_break o n s s' hc hb]; exact hstep
        | false => rw [pollLoop_cont o n s s' hc hb, ih s', hstep]
      · rw [pollLoop_stop o (n + 1) s (by simpa using hc)]

/-- Once the sticky flag is set, an iteration emits no further
first-detection event. -/
lemma pollStep_detected_count_of_failed (s : RunState) (h : s.workflowFailed = true) :
    ((pollStep o s).1.events).countP isDetectedEvent = s.events.countP isDetectedEvent := by
  unfold pollStep successStep errorStep
  repeat' split
  all_goals simp [h, List.countP_append, isDetectedEvent]

/-- Once the sticky flag is set, the rest of the loop emits no further
first-detection event. -/
lemma pollLoop_detected_count_of_failed (fuel : Nat) (s : RunState)
    (h : s.workflowFailed = true) :
    ((pollLoop o fuel s).events).countP isDetectedEvent
      = s.events.countP isDetectedEvent := by
  induction fuel generalizing s with
  | zero => rfl
  | succ n ih =>
      by_cases hc : loopCond s = true
      · rcases hb : pollStep o s with ⟨s', b⟩
        have hstep := pollStep_detected_count_of_failed o s h
        rw [hb] at hstep
        have hf' : s'.workflowFailed = true := by
          have := pollStep_failed_mono o s h
          rw [hb] at this
          exact this
        cases b with
        | true => rw [pollLoop_break o n s s' hc hb]; exact hstep
        | false => rw [pollLoop_cont o n s s' hc hb, ih s' hf', hstep]
      · rw [pollLoop_stop o (n + 1) s (by simpa using hc)]

/-- From an unset flag, an iteration emits a first-detection event exactly
when it sets the flag. -/
lemma pollStep_detected_count_of_ok (s : RunState) (h : s.workflowFailed = false) :
    ((pollStep o s).1.events).countP isDetectedEvent
      = s.events.countP isDetectedEvent
        + (if (pollStep o s).1.workflowFailed then 1 else 0) := by
  unfold pollStep successStep errorStep
  repeat' split
  all_goals simp_all [List.countP_append, isDetectedEvent]

/-- From an unset flag, the rest of the loop emits the first-detection
event exactly once if some iteration classifies an error, and never
otherwise. -/
lemma pollLoop_detected_count_of_ok (fuel : Nat) (s : RunState)
    (h : s.workflowFailed = false) :
    ((pollLoop o fuel s).events).countP isDetectedEvent
      = s.events.countP isDetectedEvent
        + (if (pollLoop o fuel s).workflowFailed then 1 else 0) := by
  induction fuel generalizing s with
  | zero => simp [pollLoop, h]
  | succ n ih =>
      by_cases hc : loopCond s = true
      · rcases hb : pollStep o s with ⟨s', b⟩
        cases b with
        | true =>
            rw [pollLoop_break o n s s' hc hb]
            have hstep := pollStep_detected_count_of_ok o s h
            rw [hb] at hstep
            exact hstep
        | false =>
            rw [pollLoop_cont o n s s' hc hb]
            have hstep := pollStep_detected_count_of_ok o s h
            rw [hb] at hstep
            cases hf' : s'.workflowFailed with
            | false =>
                rw [ih s' hf']
                rw [hf'] at hstep
                simp only [if_false, Bool.false_eq_true, Nat.add_zero] at hstep
                rw [hstep]
            | true =>
                rw [pollLoop_detected_count_of_failed o n s' hf']
                rw [pollLoop_failed_mono o n s' hf']
                rw [hf'] at hstep
                simp only [if_true] at hstep
                rw [hstep]
                simp
      · rw [pollLoop_stop o (n + 1) s (by simpa using hc)]
        simp [h]

end CountLemmas

/-- A falsy value is never strictly equal to the boolean true. -/
lemma strictTrue_false_of_falsy (x : Option JsVal) (h : truthyOpt x = false) :
    strictTrue x = false := by
  cases x with
  | none => rfl
  | some v =>
      cases v with
      | bool b => cases b with
          | true => simp [truthyOpt, jsTruthy] at h
          | false => rfl
      | null => rfl
      | num n => rfl
      | str s => rfl
      | arr xs => rfl
      | obj fs => rfl

/-- Looking up a key appended last succeeds when no earlier entry has it. -/
lemma jsLookup_append_last (k : String) (v : JsVal) (l : List (String × JsVal))
    (h : ∀ kv ∈ l, kv.1 ≠ k) :
    jsLookup k (l ++ [(k, v)]) = some v := by
  induction l with
  | nil => simp [jsLookup]
  | cons kv rest ih =>
      have hne : kv.1 ≠ k := h kv (List.mem_cons_self kv rest)
      simp only [List.cons_append, jsLookup, if_neg hne]
      exact ih (fun kv' hm => h kv' (List.mem_cons_of_mem kv hm))

/-- Looking up any other key ignores an entry appended last. -/
lemma jsLookup_append_other (k k' : String) (v : JsVal) (l : List (String × JsVal))
    (h : k ≠ k') :
    jsLookup k (l ++ [(k', v)]) = jsLookup k l := by
  induction l with
  | nil => simp [jsLookup, Ne.symm h]
  | cons kv rest ih =>
      by_cases hk : kv.1 = k
      · simp [jsLookup, hk]
      · simp only [List.cons_append, jsLookup, if_neg hk]
        exact ih

/-- Filtering out a key does not change lookups of other keys. -/
lemma jsLookup_filter_ne (k k' : String) (l : List (String × JsVal)) (h : k ≠ k') :
    jsLookup k (l.filter (fun kv => kv.1 != k')) = jsLookup k l := by
  induction l with
  | nil => rfl
  | cons kv rest ih =>
      cases hfilter : (kv.1 != k') with
      | false =>
          have hkv : kv.1 = k' := by simpa using hfilter
          have hk : ¬ kv.1 = k := by rw [hkv]; exact Ne.symm h
          simp [List.filter_cons, hfilter, jsLookup, hk, ih]
      | true =>
          by_cases hk : kv.1 = k
          · simp [List.filter_cons, hfilter, jsLookup, hk, h]
          · simp [List.filter_cons, hfilter, jsLookup, hk, ih]

section RunLemmas

variable (o : Nat → FetchOutcome)

/-- A run of consecutive transport failures short of both ceilings
advances the counters without touching the document, the flag, or any
terminal event. -/
lemma pollLoop_errorRun :
    ∀ (k : Nat) (s : RunState) (u : String),
    jsGet s.data "executionUrl" = some (JsVal.str u) →
    truthyOpt (jsGet s.data "executionUrl") = true →
    truthyOpt (jsGet s.data "finished") = false →
    (∀ i, i < k → o (s.pollCount + i) = FetchOutcome.transportError) →
    s.consecutiveErrors + k ≤ maxConsecutiveErrors →
    s.pollCount + k ≤ maxPolls →
    ∃ t, (∀ fuel, pollLoop o (k + fuel) s
        = pollLoop o fuel
            { data := s.data
              pollCount := s.pollCount + k
              consecutiveErrors := s.consecutiveErrors + k
              workflowFailed := s.workflowFailed
              events := s.events ++ t })
      ∧ t.countP isTooManyEvent = 0 ∧ t.countP isPollingErrorEvent = k
      ∧ t.countP isDetectedEvent = 0 ∧ t.countP isEndedEvent = 0
      ∧ t.countP isCompletedEvent = 0 := by
  intro k
  induction k with
  | zero =>
      intro s u hu htr hf ho hcnt hp
      refine ⟨[], ?_, by simp, by simp, by simp, by simp, by simp⟩
      intro fuel
      have hs : ({ data := s.data
                   pollCount := s.pollCount + 0
                   consecutiveErrors := s.consecutiveErrors + 0
                   workflowFailed := s.workflowFailed
                   events := s.events ++ [] } : RunState) = s := by
        cases s
        simp
      rw [hs, Nat.zero_add]
  | succ k ih =>
      intro s u hu htr hf ho hcnt hp
      have hp1000 : s.pollCount < maxPolls := by omega
      have hc : loopCond s = true := by
        simp [loopCond, htr, hf, hp1000]
      have hguard : s.consecutiveErrors < maxConsecutiveErrors := by omega
      have ho0 : o s.pollCount = FetchOutcome.transportError := by
        simpa using ho 0 (by omega)
      have hb := pollStep_error o s u hguard hu ho0
      obtain ⟨t1, heq, hc1, hc2, hc3, hc4, hc5⟩ :=
        ih (errorStep s (s.pollCount + 1) true) u
          (by simpa [errorStep] using hu)
          (by simpa [errorStep] using htr)
          (by simpa [errorStep] using hf)
          (by
            intro i hi
            simp only [errorStep]
            have : s.pollCount + 1 + i = s.pollCount + (1 + i) := by omega
            rw [this]
            exact ho (1 + i) (by omega))
          (by simp [errorStep]; omega)
          (by simp [errorStep]; omega)
      refine ⟨[StreamEvent.step (s.pollCount + 1) s.consecutiveErrors,
               StreamEvent.pollingError (s.pollCount + 1) (s.consecutiveErrors + 1)
                 (decide (s.consecutiveErrors + 1 < maxConsecutiveErrors))] ++ t1,
             ?_, ?_, ?_, ?_, ?_, ?_⟩
      · intro fuel
        have harith : k + 1 + fuel = k + fuel + 1 := by omega
        rw [harith, pollLoop_cont o (k + fuel) s _ hc hb, heq fuel]
        congr 1
        simp [errorStep, List.append_assoc]
        try omega
      · simp [List.countP_append, List.countP_cons, isTooManyEvent, hc1]
      · simp [List.countP_append, List.countP_cons, isPollingErrorEvent, hc2]
      · simp [List.countP_append, List.countP_cons, isDetectedEvent, hc3]
      · simp [List.countP_append, List.countP_cons, isEndedEvent, hc4]
      · simp [List.countP_append, List.countP_cons, isCompletedEvent, hc5]

end RunLemmas

section SuccessRun

variable (o : Nat → FetchOutcome)

/-- A run of successful fetches all returning the same unfinished,
error-free document advances the attempt counter, keeps the failure
counter at zero and the flag unchanged, and emits no terminal event. -/
lemma pollLoop_successRun (doc : JsVal) (u : String)
    (hdu : jsGet doc "executionUrl" = some (JsVal.str u))
    (hdtr : truthyOpt (jsGet doc "executionUrl") = true)
    (hdf : truthyOpt (jsGet doc "finished") = false)
    (hde : (analyzeN8NResponse doc).isError = false) :
    ∀ (k : Nat) (s : RunState),
    s.data = doc →
    s.consecutiveErrors = 0 →
    (∀ i, i < k → o (s.pollCount + i) = FetchOutcome.success doc) →
    s.pollCount + k ≤ maxPolls →
    ∃ t, (∀ fuel, pollLoop o (k + fuel) s
        = pollLoop o fuel
            { data := doc
              pollCount := s.pollCount + k
              consecutiveErrors := 0
              workflowFailed := s.workflowFailed
              events := s.events ++ t })
      ∧ t.countP isTooManyEvent = 0 ∧ t.countP isPollingErrorEvent = 0
      ∧ t.countP isDetectedEvent = 0 ∧ t.countP isEndedEvent = 0
      ∧ t.countP isCompletedEvent = 0 := by
  intro k
  induction k with
  | zero =>
      intro s hd h0 ho hp
      refine ⟨[], ?_, by simp, by simp, by simp, by simp, by simp⟩
      intro fuel
      have hs : ({ data := doc
                   pollCount := s.pollCount + 0
                   consecutiveErrors := 0
                   workflowFailed := s.workflowFailed
                   events := s.events ++ [] } : RunState) = s := by
        cases s
        simp_all
      rw [hs, Nat.zero_add]
  | succ k ih =>
      intro s hd h0 ho hp
      have hp1000 : s.pollCount < maxPolls := by omega
      have hc : loopCond s = true := by
        simp [loopCond, hd, hdtr, hdf, hp1000]
      have hguard : s.consecutiveErrors < maxConsecutiveErrors := by
        rw [h0]
        simp [maxConsecutiveErrors]
      have ho0 : o s.pollCount = FetchOutcome.success doc := by
        simpa using ho 0 (by omega)
      have hb := pollStep_success o s u doc hguard (hd ▸ hdu) ho0
      obtain ⟨t1, heq, hc1, hc2, hc3, hc4, hc5⟩ :=
        ih (successStep s (s.pollCount + 1) doc)
          (by simp [successStep])
          (by simp [successStep])
          (by
            intro i hi
            simp only [successStep]
            have : s.pollCount + 1 + i = s.pollCount + (1 + i) := by omega
            rw [this]
            exact ho (1 + i) (by omega))
          (by simp [successStep]; omega)
      refine ⟨[StreamEvent.step (s.pollCount + 1) s.consecutiveErrors]
               ++ [StreamEvent.update (s.pollCount + 1) (analyzeN8NResponse doc).isError
                    (updateLabel (s.workflowFailed || (analyzeN8NResponse doc).isError) doc)
                    (s.workflowFailed || (analyzeN8NResponse doc).isError)] ++ t1,
             ?_, ?_, ?_, ?_, ?_, ?_⟩
      · intro fuel
        have harith : k + 1 + fuel = k + fuel + 1 := by omega
        rw [harith, pollLoop_cont o (k + fuel) s _ hc hb, heq fuel]
        congr 1
        simp [successStep, hde, hdf, List.append_assoc]
        try omega
      · simp [List.countP_append, List.countP_cons, isTooManyEvent, hc1]
      · simp [List.countP_append, List.countP_cons, isPollingErrorEvent, hc2]
      · simp [List.countP_append, List.countP_cons, isDetectedEvent, hc3]
      · simp [List.countP_append, List.countP_cons, isEndedEvent, hc4]
      · simp [List.countP_append, List.countP_cons, isCompletedEvent, hc5]

end SuccessRun

/-- C2: once the sticky workflow-error flag is set, no later iteration,
event emission, or state transition of that run clears it. -/
theorem workflowFailed_sticky (o : Nat → FetchOutcome) (fuel : Nat) (s : RunState)
    (h : s.workflowFailed = true) :
    (pollStep o s).1.workflowFailed = true ∧
    (pollLoop o fuel s).workflowFailed = true :=
  ⟨pollStep_failed_mono o s h, pollLoop_failed_mono o fuel s h⟩

/-- Witness for C2 at a concrete flagged state and oracle. -/
def oracleAllErr : Nat → FetchOutcome := fun _ => FetchOutcome.transportError

/-- A concrete mid-run state whose sticky flag is already set. -/
def stateFlagged : RunState :=
  { data := JsVal.obj [("executionUrl", JsVal.str "u"), ("finished", JsVal.bool false)]
    pollCount := 3
    consecutiveErrors := 1
    workflowFailed := true
    events := [] }

/-- Witness: the sticky-flag theorem applied at a concrete input. -/
theorem workflowFailed_sticky_witness :
    (pollStep oracleAllErr stateFlagged).1.workflowFailed = true ∧
    (pollLoop oracleAllErr 5 stateFlagged).workflowFailed = true :=
  workflowFailed_sticky oracleAllErr 5 stateFlagged rfl

/-- C4: the scheduler returns the fixed elevated interval whenever an
error was just observed, and otherwise a step function of the attempt
count that is monotonically non-decreasing. -/
theorem pollingInterval_spec :
    (∀ n, getPollingInterval n true = 15000) ∧
    (∀ n, n < 5 → getPollingInterval n false = 3000) ∧
    (∀ n, 5 ≤ n → n < 20 → getPollingInterval n false = 5000) ∧
    (∀ n, 20 ≤ n → n < 60 → getPollingInterval n false = 10000) ∧
    (∀ n, 60 ≤ n → n < 120 → getPollingInterval n false = 15000) ∧
    (∀ n, 120 ≤ n → getPollingInterval n false = 20000) ∧
    (∀ m n, m ≤ n → getPollingInterval m false ≤ getPollingInterval n false) := by
  refine ⟨fun n => rfl, ?_, ?_, ?_, ?_, ?_, ?_⟩ <;>
  · intros
    simp only [getPollingInterval, Bool.false_eq_true, if_false]
    split_ifs <;> omega

/-- Witness: the scheduler theorem applied on each step and a pair. -/
theorem pollingInterval_spec_witness :
    getPollingInterval 7 true = 15000 ∧
    getPollingInterval 3 false = 3000 ∧
    getPollingInterval 7 false = 5000 ∧
    getPollingInterval 30 false = 10000 ∧
    getPollingInterval 80 false = 15000 ∧
    getPollingInterval 500 false = 20000 ∧
    getPollingInterval 3 false ≤ getPollingInterval 500 false :=
  ⟨pollingInterval_spec.1 7,
   pollingInterval_spec.2.1 3 (by decide),
   pollingInterval_spec.2.2.1 7 (by decide) (by decide),
   pollingInterval_spec.2.2.2.1 30 (by decide) (by decide),
   pollingInterval_spec.2.2.2.2.1 80 (by decide) (by decide),
   pollingInterval_spec.2.2.2.2.2.1 500 (by decide),
   pollingInterval_spec.2.2.2.2.2.2 3 500 (by decide)⟩

/-- C9: the classifier is total, returns no-error for falsy or
non-object input, and classifies the serialized document by marker scan
in source order: nonzero-exit-code, then process-finished-with-error,
then timeout, else no error. -/
theorem analyzeN8NResponse_spec :
    (∀ v, jsTruthy v = false ∨ jsTypeOf v ≠ "object" →
       analyzeN8NResponse v = ⟨false, none, none⟩) ∧
    (∀ v, jsTruthy v = true → jsTypeOf v = "object" →
       jsIncludes (lowerStr v) "exit code: 1" = true →
       analyzeN8NResponse v = ⟨true, some "workflow_error", some "critical"⟩) ∧
    (∀ v, jsTruthy v = true → jsTypeOf v = "object" →
       jsIncludes (lowerStr v) "exit code: 1" = false →
       jsIncludes (lowerStr v) "process finished with an error" = true →
       analyzeN8NResponse v = ⟨true, some "process_error", some "critical"⟩) ∧
    (∀ v, jsTruthy v = true → jsTypeOf v = "object" →
       jsIncludes (lowerStr v) "exit code: 1" = false →
       jsIncludes (lowerStr v) "process finished with an error" = false →
       (jsIncludes (lowerStr v) "timeout" || jsIncludes (lowerStr v) "timed out") = true →
       analyzeN8NResponse v = ⟨true, some "n8n_timeout", some "warning"⟩) ∧
    (∀ v, jsIncludes (lowerStr v) "exit code: 1" = false →
       jsIncludes (lowerStr v) "process finished with an error" = false →
       jsIncludes (lowerStr v) "timeout" = false →
       jsIncludes (lowerStr v) "timed out" = false →
       analyzeN8NResponse v = ⟨false, none, none⟩) := by
  refine ⟨?_, ?_, ?_, ?_, ?_⟩
  · intro v h
    rcases h with h | h <;> simp [analyzeN8NResponse, h]
  · intro v h1 h2 h3
    simp [analyzeN8NResponse, h1, h2, h3]
  · intro v h1 h2 h3 h4
    simp [analyzeN8NResponse, h1, h2, h3, h4]
  · intro v h1 h2 h3 h4 h5
    simp [analyzeN8NResponse, h1, h2, h3, h4, h5]
  · intro v h1 h2 h3 h4
    unfold analyzeN8NResponse
    split
    · rfl
    · simp [h1, h2, h3, h4]

/-- A document carrying the nonzero-exit-code marker. -/
def docExit : JsVal := JsVal.obj [("msg", JsVal.str "Exit code: 1")]

/-- A document carrying the process-error marker. -/
def docProc : JsVal := JsVal.obj [("msg", JsVal.str "Process finished with an error")]

/-- A document carrying the timeout marker. -/
def docTimedOut : JsVal := JsVal.obj [("msg", JsVal.str "request timed out")]

/-- A marker-free in-progress document. -/
def docClean : JsVal :=
  JsVal.obj [("executionUrl", JsVal.str "u"), ("finished", JsVal.bool false)]

/-- Witness: the classifier theorem applied to concrete documents. -/
theorem analyzeN8NResponse_spec_witness :
    analyzeN8NResponse JsVal.null = ⟨false, none, none⟩ ∧
    analyzeN8NResponse docExit = ⟨true, some "workflow_error", some "critical"⟩ ∧
    analyzeN8NResponse docProc = ⟨true, some "process_error", some "critical"⟩ ∧
    analyzeN8NResponse docTimedOut = ⟨true, some "n8n_timeout", some "warning"⟩ ∧
    analyzeN8NResponse docClean = ⟨false, none, none⟩ :=
  ⟨analyzeN8NResponse_spec.1 JsVal.null (Or.inl rfl),
   analyzeN8NResponse_spec.2.1 docExit rfl rfl (by decide),
   analyzeN8NResponse_spec.2.2.1 docProc rfl rfl (by decide) (by decide),
   analyzeN8NResponse_spec.2.2.2.1 docTimedOut rfl rfl (by decide) (by decide) (by decide),
   analyzeN8NResponse_spec.2.2.2.2 docClean (by decide) (by decide) (by decide) (by decide)⟩

/-- C1: a successful fetch of a finished document ends the loop within
that iteration, with exactly one terminal completion event, and the
terminal state is completed, or completed-with-errors exactly when the
sticky flag (as updated by that same iteration) is set. -/
theorem finished_completes_run (o : Nat → FetchOutcome) (s : RunState) (u : String)
    (doc : JsVal)
    (hc : loopCond s = true)
    (h10 : s.consecutiveErrors < maxConsecutiveErrors)
    (hu : jsGet s.data "executionUrl" = some (JsVal.str u))
    (ho : o s.pollCount = FetchOutcome.success doc)
    (hf : truthyOpt (jsGet doc "finished") = true) :
    pollStep o s = (successStep s (s.pollCount + 1) doc, false) ∧
    (∀ fuel, pollLoop o (fuel + 1) s = successStep s (s.pollCount + 1) doc) ∧
    (successStep s (s.pollCount + 1) doc).events.countP isCompletedEvent
      = s.events.countP isCompletedEvent + 1 ∧
    endReason (successStep s (s.pollCount + 1) doc)
      = (if (successStep s (s.pollCount + 1) doc).workflowFailed
         then ("completed_with_errors", "partial_success")
         else ("completed", "success")) := by
  have hb := pollStep_success o s u doc h10 hu ho
  have hstop : loopCond (successStep s (s.pollCount + 1) doc) = false := by
    simp [loopCond, successStep, hf]
  refine ⟨hb, ?_, ?_, ?_⟩
  · intro fuel
    rw [pollLoop_cont o fuel s _ hc hb]
    exact pollLoop_stop o fuel _ hstop
  · simp only [successStep]
    split_ifs <;> simp_all [List.countP_append, isCompletedEvent]
  · cases hw : s.workflowFailed || (analyzeN8NResponse doc).isError with
    | true => simp [endReason, successStep, hf, hw]
    | false => simp [endReason, successStep, hf, hw]

/-- A finished document with no marker. -/
def docDone : JsVal := JsVal.obj [("finished", JsVal.bool true)]

/-- Oracle whose every fetch succeeds with the finished document. -/
def oracleDone : Nat → FetchOutcome := fun _ => FetchOutcome.success docDone

/-- Witness: the completion theorem applied at a concrete fresh run. -/
theorem finished_completes_run_witness :
    pollStep oracleDone (initState (JsVal.str "u"))
      = (successStep (initState (JsVal.str "u")) 1 docDone, false) ∧
    pollLoop oracleDone 3 (initState (JsVal.str "u"))
      = successStep (initState (JsVal.str "u")) 1 docDone ∧
    (successStep (initState (JsVal.str "u")) 1 docDone).events.countP isCompletedEvent
      = 0 + 1 ∧
    endReason (successStep (initState (JsVal.str "u")) 1 docDone)
      = ("completed", "success") := by
  have h := finished_completes_run oracleDone (initState (JsVal.str "u")) "u" docDone
    (by decide) (by decide) rfl rfl rfl
  exact ⟨h.1, h.2.1 2, h.2.2.1, h.2.2.2⟩

/-- C7: within an iteration that reaches the fetch, the
consecutive-failure counter resets to exactly zero on a successful fetch
and increments by exactly one on a transport failure. -/
theorem consecutiveErrors_spec (o : Nat → FetchOutcome) (s : RunState) (u : String)
    (h10 : s.consecutiveErrors < maxConsecutiveErrors)
    (hu : jsGet s.data "executionUrl" = some (JsVal.str u)) :
    (∀ doc, o s.pollCount = FetchOutcome.success doc →
       (pollStep o s).1.consecutiveErrors = 0) ∧
    (o s.pollCount = FetchOutcome.transportError →
       (pollStep o s).1.consecutiveErrors = s.consecutiveErrors + 1) := by
  constructor
  · intro doc ho
    rw [pollStep_success o s u doc h10 hu ho]
    rfl
  · intro ho
    rw [pollStep_error o s u h10 hu ho]
    rfl

/-- A mid-run state with two consecutive failures accumulated. -/
def stateMid : RunState :=
  { data := docClean
    pollCount := 5
    consecutiveErrors := 2
    workflowFailed := false
    events := [] }

/-- Witness: the counter theorem applied on both outcomes. -/
theorem consecutiveErrors_spec_witness :
    (pollStep oracleDone stateMid).1.consecutiveErrors = 0 ∧
    (pollStep oracleAllErr stateMid).1.consecutiveErrors = stateMid.consecutiveErrors + 1 :=
  ⟨(consecutiveErrors_spec oracleDone stateMid "u" (by decide) rfl).1 docDone rfl,
   (consecutiveErrors_spec oracleAllErr stateMid "u" (by decide) rfl).2 rfl⟩

/-- C8: the attempt counter increments by exactly one at the entry of
every loop cycle regardless of the fetch outcome, and at the ceiling the
loop stops with the max-attempts terminal state when the document is not
finished. -/
theorem attemptCounter_spec (o : Nat → FetchOutcome) :
    (∀ s, (pollStep o s).1.pollCount = s.pollCount + 1) ∧
    (∀ s fuel, maxPolls ≤ s.pollCount → pollLoop o fuel s = s) ∧
    (∀ s, maxPolls ≤ s.pollCount → truthyOpt (jsGet s.data "finished") = false →
       endReason s = ("max_polls_reached", "max_attempts")) := by
  refine ⟨pollStep_pollCount o, ?_, ?_⟩
  · intro s fuel h
    apply pollLoop_stop
    have hn : ¬ s.pollCount < maxPolls := by omega
    simp [loopCond, hn]
  · intro s h hf
    simp [endReason, hf, h]

/-- A state that has just reached the attempt ceiling, not finished. -/
def stateMax : RunState :=
  { data := docClean
    pollCount := 1000
    consecutiveErrors := 0
    workflowFailed := false
    events := [] }

/-- Witness: the attempt-counter theorem applied at concrete states. -/
theorem attemptCounter_spec_witness :
    (pollStep oracleAllErr stateMid).1.pollCount = stateMid.pollCount + 1 ∧
    pollLoop oracleAllErr 7 stateMax = stateMax ∧
    endReason stateMax = ("max_polls_reached", "max_attempts") :=
  ⟨(attemptCounter_spec oracleAllErr).1 stateMid,
   (attemptCounter_spec oracleAllErr).2.1 stateMax 7 (by decide),
   (attemptCounter_spec oracleAllErr).2.2 stateMax (by decide) (by decide)⟩

/-- C10: a successful fetch of an unfinished document without a truthy
status URL ends the loop at once, short of both ceilings, and the final
summary reports the interrupted reason with success false. -/
theorem interrupted_spec (o : Nat → FetchOutcome) (s : RunState) (u : String) (doc : JsVal)
    (hc : loopCond s = true)
    (h10 : s.consecutiveErrors < maxConsecutiveErrors)
    (hu : jsGet s.data "executionUrl" = some (JsVal.str u))
    (ho : o s.pollCount = FetchOutcome.success doc)
    (hf : truthyOpt (jsGet doc "finished") = false)
    (hurl : truthyOpt (jsGet doc "executionUrl") = false)
    (hp : s.pollCount + 1 < maxPolls) :
    (∀ fuel, pollLoop o (fuel + 1) s = successStep s (s.pollCount + 1) doc) ∧
    endReason (successStep s (s.pollCount + 1) doc) = ("interrupted", "interrupted") ∧
    (∀ ms, (pollFinish ms (successStep s (s.pollCount + 1) doc)).events
        = (successStep s (s.pollCount + 1) doc).events
          ++ [StreamEvent.pollingEnded (s.pollCount + 1) (roundDiv ms 1000) false
                (successStep s (s.pollCount + 1) doc).workflowFailed "interrupted" 0 false
                "interrupted"]) := by
  have hb := pollStep_success o s u doc h10 hu ho
  have hstop : loopCond (successStep s (s.pollCount + 1) doc) = false := by
    simp [loopCond, successStep, hurl]
  have h3 : ¬ maxPolls ≤ s.pollCount + 1 := Nat.not_le.mpr hp
  have h4 : ¬ maxConsecutiveErrors ≤ (0 : Nat) := by simp [maxConsecutiveErrors]
  have hreason : endReason (successStep s (s.pollCount + 1) doc)
      = ("interrupted", "interrupted") := by
    simp [endReason, successStep, hf, h3, h4]
  have hstrict : strictTrue (jsGet doc "finished") = false :=
    strictTrue_false_of_falsy _ hf
  refine ⟨?_, hreason, ?_⟩
  · intro fuel
    rw [pollLoop_cont o fuel s _ hc hb]
    exact pollLoop_stop o fuel _ hstop
  · intro ms
    have hdata : (successStep s (s.pollCount + 1) doc).data = doc := rfl
    have hpc : (successStep s (s.pollCount + 1) doc).pollCount = s.pollCount + 1 := rfl
    have hce : (successStep s (s.pollCount + 1) doc).consecutiveErrors = 0 := rfl
    simp only [pollFinish, hreason, hdata, hpc, hce, hf, hstrict]

/-- An unfinished document with no status URL. -/
def docNoUrl : JsVal := JsVal.obj [("finished", JsVal.bool false)]

/-- Oracle whose every fetch succeeds with the URL-less document. -/
def oracleNoUrl : Nat → FetchOutcome := fun _ => FetchOutcome.success docNoUrl

/-- Witness: the interrupted-exit theorem applied at a concrete run. -/
theorem interrupted_spec_witness :
    pollLoop oracleNoUrl 4 (initState (JsVal.str "u"))
      = successStep (initState (JsVal.str "u")) 1 docNoUrl ∧
    endReason (successStep (initState (JsVal.str "u")) 1 docNoUrl)
      = ("interrupted", "interrupted") ∧
    (pollFinish 5000 (successStep (initState (JsVal.str "u")) 1 docNoUrl)).events
      = (successStep (initState (JsVal.str "u")) 1 docNoUrl).events
        ++ [StreamEvent.pollingEnded 1 5 false false "interrupted" 0 false "interrupted"] := by
  have h := interrupted_spec oracleNoUrl (initState (JsVal.str "u")) "u" docNoUrl
    (by decide) (by decide) rfl rfl rfl rfl (by decide)
  exact ⟨h.1 3, h.2.1, h.2.2 5000⟩

/-- C6: the first iteration whose classification signals an error emits
the first-detection event and sets the sticky flag; later error-signalled
iterations emit the persisting event instead; over any remaining run the
first-detection event is emitted at most once, exactly when the flag
becomes set, and never again once the flag is set; polling continues
rather than aborting. -/
theorem errorDetection_spec (o : Nat → FetchOutcome) (s : RunState) (u : String)
    (doc : JsVal)
    (h10 : s.consecutiveErrors < maxConsecutiveErrors)
    (hu : jsGet s.data "executionUrl" = some (JsVal.str u))
    (ho : o s.pollCount = FetchOutcome.success doc)
    (he : (analyzeN8NResponse doc).isError = true) :
    (s.workflowFailed = false →
       (pollStep o s).1.events.countP isDetectedEvent
           = s.events.countP isDetectedEvent + 1 ∧
       (pollStep o s).1.events.countP isPersistingEvent
           = s.events.countP isPersistingEvent ∧
       (pollStep o s).1.workflowFailed = true ∧
       (pollStep o s).2 = false) ∧
    (s.workflowFailed = true →
       (pollStep o s).1.events.countP isDetectedEvent
           = s.events.countP isDetectedEvent ∧
       (pollStep o s).1.events.countP isPersistingEvent
           = s.events.countP isPersistingEvent + 1 ∧
       (pollStep o s).2 = false) ∧
    (∀ fuel, s.workflowFailed = false →
       (pollLoop o fuel s).events.countP isDetectedEvent
         = s.events.countP isDetectedEvent
           + (if (pollLoop o fuel s).workflowFailed then 1 else 0)) ∧
    (∀ fuel, s.workflowFailed = true →
       (pollLoop o fuel s).events.countP isDetectedEvent
         = s.events.countP isDetectedEvent) := by
  have hb := pollStep_success o s u doc h10 hu ho
  refine ⟨?_, ?_, ?_, ?_⟩
  · intro hw
    rw [hb]
    refine ⟨?_, ?_, ?_, rfl⟩
    · simp only [successStep]
      split_ifs <;> simp_all [List.countP_append, isDetectedEvent]
    · simp only [successStep]
      split_ifs <;> simp_all [List.countP_append, isPersistingEvent]
    · simp [successStep, hw, he]
  · intro hw
    rw [hb]
    refine ⟨?_, ?_, rfl⟩
    · simp only [successStep]
      split_ifs <;> simp_all [List.countP_append, isDetectedEvent]
    · simp only [successStep]
      split_ifs <;> simp_all [List.countP_append, isPersistingEvent]
  · intro fuel hw
    exact pollLoop_detected_count_of_ok o fuel s hw
  · intro fuel hw
    exact pollLoop_detected_count_of_failed o fuel s hw

/-- Oracle whose every fetch succeeds with the exit-code-marked document. -/
def oracleErrDoc : Nat → FetchOutcome := fun _ => FetchOutcome.success docExit

/-- Witness: the detection theorem applied at fresh and flagged states. -/
theorem errorDetection_spec_witness :
    (pollStep oracleErrDoc stateMid).1.events.countP isDetectedEvent = 1 ∧
    (pollStep oracleErrDoc stateMid).1.workflowFailed = true ∧
    (pollStep oracleErrDoc stateFlagged).1.events.countP isDetectedEvent = 0 ∧
    (pollStep oracleErrDoc stateFlagged).1.events.countP isPersistingEvent = 1 ∧
    (pollLoop oracleErrDoc 2 stateMid).events.countP isDetectedEvent
      = (if (pollLoop oracleErrDoc 2 stateMid).workflowFailed then 1 else 0) := by
  have h1 := errorDetection_spec oracleErrDoc stateMid "u" docExit
    (by decide) rfl rfl (by decide)
  have h2 := errorDetection_spec oracleErrDoc stateFlagged "u" docExit
    (by decide) rfl rfl (by decide)
  exact ⟨(h1.1 rfl).1, (h1.1 rfl).2.2.1, (h2.2.1 rfl).1, (h2.2.1 rfl).2.1,
    h1.2.2.1 2 rfl⟩

/-- C5: every run ends with exactly one final summary event, emitted
after all loop events and carrying the attempt total, the rounded
elapsed time, the terminal reason and the sticky flag; and the returned
value is the last document augmented with the metadata block. -/
theorem pollingEnded_summary (url : JsVal) (o : Nat → FetchOutcome) (ms : Nat)
    (s : RunState) (hs : s = pollLoop o (maxPolls + 1) (initState url)) :
    (pollWorkflow url o ms).events.countP isEndedEvent = 1 ∧
    (pollWorkflow url o ms).events
      = s.events ++ [StreamEvent.pollingEnded s.pollCount (roundDiv ms 1000)
          (truthyOpt (jsGet s.data "finished")) s.workflowFailed (endReason s).1
          s.consecutiveErrors (strictTrue (jsGet s.data "finished")) (endReason s).2] ∧
    jsGet (pollWorkflow url o ms).result "_meta"
      = some (JsVal.obj
          [("success", JsVal.bool (strictTrue (jsGet s.data "finished"))),
           ("failed", JsVal.bool s.workflowFailed),
           ("reason", JsVal.str (endReason s).1),
           ("totalPolls", JsVal.num (s.pollCount : Int)),
           ("totalTime", JsVal.num (roundDiv ms 1000 : Int)),
           ("totalMinutes", JsVal.num (roundDiv ms 60000 : Int)),
           ("noTimeoutApplied", JsVal.bool true)]) ∧
    (∀ fs, s.data = JsVal.obj fs → ∀ k, k ≠ "_meta" →
       jsGet (pollWorkflow url o ms).result k = jsGet s.data k) := by
  have hw : pollWorkflow url o ms = pollFinish ms s := by
    rw [hs]
    rfl
  have hle : s.events.countP isEndedEvent = 0 := by
    rw [hs, pollLoop_ended_count]
    rfl
  refine ⟨?_, ?_, ?_, ?_⟩
  · rw [hw]
    simp only [pollFinish]
    rw [List.countP_append, hle]
    simp [isEndedEvent]
  · rw [hw]
    rfl
  · rw [hw]
    simp only [pollFinish, jsGet]
    rw [jsLookup_append_last]
    · rfl
    · intro kv hm
      have hmem := List.of_mem_filter hm
      simpa using hmem
  · intro fs hfs k hk
    rw [hw]
    simp only [pollFinish, jsGet]
    rw [jsLookup_append_other _ _ _ _ hk, jsLookup_filter_ne _ _ _ hk, hfs]
    simp [jsSpread, jsGet]

/-- Witness: the summary theorem applied at a concrete one-poll run. -/
theorem pollingEnded_summary_witness :
    (pollWorkflow (JsVal.str "u") oracleDone 7000).events.countP isEndedEvent = 1 ∧
    jsGet (pollWorkflow (JsVal.str "u") oracleDone 7000).result "finished"
      = jsGet (pollLoop oracleDone (maxPolls + 1) (initState (JsVal.str "u"))).data
          "finished" := by
  have h := pollingEnded_summary (JsVal.str "u") oracleDone 7000
    (pollLoop oracleDone (maxPolls + 1) (initState (JsVal.str "u"))) rfl
  exact ⟨h.1, h.2.2.2 [("finished", JsVal.bool true)] rfl "finished" (by decide)⟩

/-- C3 (amended): ten consecutive transport failures with no intervening
success, starting from a clean failure counter and ending short of the
attempt ceiling, break the loop with exactly one too-many-errors event,
no further fetch attempt, and the network-failure terminal state. -/
theorem tooManyErrors_spec (o : Nat → FetchOutcome) (s : RunState) (u : String)
    (hc : loopCond s = true)
    (h0 : s.consecutiveErrors = 0)
    (hu : jsGet s.data "executionUrl" = some (JsVal.str u))
    (ho : ∀ i, i < 10 → o (s.pollCount + i) = FetchOutcome.transportError)
    (hp : s.pollCount + 11 < maxPolls) :
    ∃ t, (∀ fuel, 11 ≤ fuel → pollLoop o fuel s
          = { data := s.data
              pollCount := s.pollCount + 11
              consecutiveErrors := 10
              workflowFailed := s.workflowFailed
              events := s.events ++ t })
      ∧ t.countP isTooManyEvent = 1
      ∧ t.countP isPollingErrorEvent = 10
      ∧ endReason { data := s.data
                    pollCount := s.pollCount + 11
                    consecutiveErrors := 10
                    workflowFailed := s.workflowFailed
                    events := s.events ++ t }
          = ("too_many_network_errors", "network_failure") := by
  have hcomp : (truthyOpt (jsGet s.data "executionUrl") = true
      ∧ truthyOpt (jsGet s.data "finished") = false)
      ∧ s.pollCount < maxPolls := by
    simpa [loopCond] using hc
  obtain ⟨⟨htr, hf⟩, _⟩ := hcomp
  obtain ⟨t1, heq, ht1a, ht1b, _, _, _⟩ :=
    pollLoop_errorRun o 10 s u hu htr hf ho
      (by simp only [maxConsecutiveErrors]; omega) (by omega)
  set s1 : RunState :=
    { data := s.data
      pollCount := s.pollCount + 10
      consecutiveErrors := s.consecutiveErrors + 10
      workflowFailed := s.workflowFailed
      events := s.events ++ t1 } with hs1
  have hc1 : loopCond s1 = true := by
    simp only [hs1, loopCond]
    have : s.pollCount + 10 < maxPolls := by omega
    simp [htr, hf, this]
  have hguard : maxConsecutiveErrors ≤ s1.consecutiveErrors := by
    simp only [hs1, maxConsecutiveErrors]
    omega
  have hb := pollStep_guard o s1 hguard
  refine ⟨t1 ++ [StreamEvent.tooManyErrors (s.consecutiveErrors + 10) (s.pollCount + 10 + 1)],
    ?_, ?_, ?_, ?_⟩
  · intro fuel hfuel
    obtain ⟨f, rfl⟩ : ∃ f, fuel = 10 + (f + 1) := ⟨fuel - 11, by omega⟩
    rw [heq (f + 1), pollLoop_break o f s1 _ hc1 hb]
    simp only [hs1]
    congr 1 <;> try omega
    rw [List.append_assoc]
  · simp [List.countP_append, List.countP_cons, isTooManyEvent, ht1a]
  · simp [List.countP_append, List.countP_cons, isPollingErrorEvent, ht1b]
  · have hnp : ¬ maxPolls ≤ s.pollCount + 11 := by omega
    simp [endReason, hf, hnp, maxConsecutiveErrors]

/-- Witness: the amended C3 theorem applied at a fresh run whose every
fetch fails. -/
theorem tooManyErrors_spec_witness :
    ∃ t, (∀ fuel, 11 ≤ fuel → pollLoop oracleAllErr fuel (initState (JsVal.str "u"))
          = { data := JsVal.obj
                [("executionUrl", JsVal.str "u"), ("finished", JsVal.bool false)]
              pollCount := 11
              consecutiveErrors := 10
              workflowFailed := false
              events := t })
      ∧ t.countP isTooManyEvent = 1
      ∧ t.countP isPollingErrorEvent = 10
      ∧ endReason { data := JsVal.obj
                      [("executionUrl", JsVal.str "u"), ("finished", JsVal.bool false)]
                    pollCount := 11
                    consecutiveErrors := 10
                    workflowFailed := false
                    events := t }
          = ("too_many_network_errors", "network_failure") :=
  tooManyErrors_spec oracleAllErr (initState (JsVal.str "u")) "u" (by decide) rfl rfl
    (fun _ _ => rfl) (by decide)

/-- Oracle of the boundary run: 990 successful unfinished polls, then
transport failures only. -/
def oracleLateFail : Nat → FetchOutcome := fun n =>
  if n < 990 then FetchOutcome.success docClean else FetchOutcome.transportError

/-- Counterexample to C3 as stated: in the run driven by
`oracleLateFail`, attempts 991 through 1000 are ten consecutive
transport failures with no intervening success, yet the attempt ceiling
is reached before the guard iteration can run, so no too-many-errors
event is ever emitted and the run ends in the max-attempts terminal
state, not the network-failure one. -/
theorem tooManyErrors_counterexample :
    (pollWorkflow (JsVal.str "u") oracleLateFail 0).events.countP isPollingErrorEvent
      = 10 ∧
    (pollWorkflow (JsVal.str "u") oracleLateFail 0).events.countP isTooManyEvent = 0 ∧
    (pollWorkflow (JsVal.str "u") oracleLateFail 0).events.filter isEndedEvent
      = [StreamEvent.pollingEnded 1000 0 false false "max_polls_reached" 10 false
          "max_attempts"] := by
  obtain ⟨t1, heq1, ha1, hb1, hc1, hd1, he1⟩ :=
    pollLoop_successRun oracleLateFail docClean "u" rfl rfl rfl (by decide) 990
      (initState (JsVal.str "u")) rfl rfl
      (by
        intro i hi
        show oracleLateFail (0 + i) = FetchOutcome.success docClean
        simp [oracleLateFail, hi])
      (by decide)
  obtain ⟨t2, heq2, ha2, hb2, hc2, hd2, he2⟩ :=
    pollLoop_errorRun oracleLateFail 10
      { data := docClean
        pollCount := (initState (JsVal.str "u")).pollCount + 990
        consecutiveErrors := 0
        workflowFailed := (initState (JsVal.str "u")).workflowFailed
        events := (initState (JsVal.str "u")).events ++ t1 }
      "u" rfl rfl rfl
      (by
        intro i hi
        show oracleLateFail (0 + 990 + i) = FetchOutcome.transportError
        have hge : ¬ (0 + 990 + i < 990) := by omega
        simp [oracleLateFail, hge])
      (by show (0 : Nat) + 10 ≤ maxConsecutiveErrors; decide)
      (by show (0 : Nat) + 990 + 10 ≤ maxPolls; decide)
  have hloop : pollLoop oracleLateFail (maxPolls + 1) (initState (JsVal.str "u"))
      = { data := docClean
          pollCount := (initState (JsVal.str "u")).pollCount + 990 + 10
          consecutiveErrors := 0 + 10
          workflowFailed := (initState (JsVal.str "u")).workflowFailed
          events := ((initState (JsVal.str "u")).events ++ t1) ++ t2 } := by
    rw [show maxPolls + 1 = 990 + (10 + 1) by norm_num [maxPolls], heq1 (10 + 1),
      heq2 1]
    exact pollLoop_stop _ 1 _ rfl
  have hw : pollWorkflow (JsVal.str "u") oracleLateFail 0
      = pollFinish 0
          { data := docClean
            pollCount := (initState (JsVal.str "u")).pollCount + 990 + 10
            consecutiveErrors := 0 + 10
            workflowFailed := (initState (JsVal.str "u")).workflowFailed
            events := ((initState (JsVal.str "u")).events ++ t1) ++ t2 } := by
    rw [pollWorkflow, hloop]
  refine ⟨?_, ?_, ?_⟩
  · rw [hw]
    simp [pollFinish, List.countP_append, hb1, hb2, isPollingErrorEvent, initState]
  · rw [hw]
    simp [pollFinish, List.countP_append, ha1, ha2, isTooManyEvent, initState]
  · rw [hw]
    have hnil1 : t1.filter isEndedEvent = [] := by
      rw [List.filter_eq_nil_iff]
      intro a ha
      have := List.countP_eq_zero.mp hd1 a ha
      simpa using this
    have hnil2 : t2.filter isEndedEvent = [] := by
      rw [List.filter_eq_nil_iff]
      intro a ha
      have := List.countP_eq_zero.mp hd2 a ha
      simpa using this
    simp [pollFinish, List.filter_append, hnil1, hnil2, initState, isEndedEvent]
    exact ⟨rfl, rfl, rfl, rfl, rfl⟩
